import Mathlib

/-!
Shallow embedding of the `MultiStoreForecastManager` class defined in
`multi_store_architecture.py` (written out by `script_4.py`).

Modelling conventions:
* Python floats are modelled as rationals (`ℚ`); `int(x)` truncation toward
  zero is `pyInt`.
* `np.random` calls are modelled by an explicit, injectable generator state
  (`Rng`) threaded through the computation, as the design notes require for
  reproducibility; `randint lo hi` yields a value in `[lo, hi)` and
  `uniform lo hi` a rational in `[lo, hi)`, matching the numpy contracts that
  the program relies on.
* `datetime.now() + timedelta(days=day)` is modelled by an injected function
  `dateOf : Nat → Date` giving the calendar date for each day offset; a `Date`
  carries the fields the program reads: month, day-of-month and Python's
  `weekday()` (0 = Monday .. 6 = Sunday).
* Python dicts with string keys are association lists; `d.get(k, v)` is
  `dictGet`.  A store configuration held in the registry always has all
  twelve keys (the default configuration and every configuration accepted by
  `add_new_store` do), so registry configurations are the plain structure
  `StoreConfig`; the partial dictionaries passed to `add_new_store` are
  `ConfigDict` with `Option` fields.
* `pandas.DataFrame` rows are lists of `ForecastRow` records.
-/

namespace MultiStore

/-- Injectable pseudo-random generator state (a linear congruential core);
the program's global `np.random` source made explicit. -/
structure Rng where
  state : Nat
deriving DecidableEq, Repr

/-- Advance the generator, producing a raw draw in `[0, 2^31)`. -/
def Rng.next (g : Rng) : Nat × Rng :=
  let s := (g.state * 1103515245 + 12345) % 2147483648
  (s, ⟨s⟩)

/-- Embeds `np.random.randint(lo, hi)`: an integer in `[lo, hi)`. -/
def randint (lo hi : Nat) (g : Rng) : Nat × Rng :=
  let p := Rng.next g
  (lo + p.1 % (hi - lo), p.2)

/-- Embeds `np.random.uniform(lo, hi)`: `lo + (hi - lo) * u` with `u ∈ [0, 1)`. -/
def uniform (lo hi : ℚ) (g : Rng) : ℚ × Rng :=
  let p := Rng.next g
  (lo + (hi - lo) * ((p.1 : ℚ) / 2147483648), p.2)

/-- Python `int(x)` on a float: truncation toward zero. -/
def pyInt (q : ℚ) : ℤ :=
  if q < 0 then ⌈q⌉ else ⌊q⌋

/-- The parts of a `datetime` the program reads: month, day of month, and
Python `weekday()` (0 = Monday .. 6 = Sunday). -/
structure Date where
  month : Nat
  day : Nat
  weekday : Nat
deriving DecidableEq, Repr

/-- Embeds `d.get(k, default)` on a string-keyed dict of floats. -/
def dictGet (l : List (String × ℚ)) (k : String) (default : ℚ) : ℚ :=
  (l.lookup k).getD default

/-- A store configuration as held in the registry: all twelve keys present
(true of `_create_default_config` and of everything `add_new_store` stores). -/
structure StoreConfig where
  name : String
  address : String
  type : String
  size_category : String
  target_audience : String
  avg_daily_visitors : Nat
  seasonal_multipliers : List (String × ℚ)
  holiday_multipliers : List (String × ℚ)
  weather_sensitivity : ℚ
  forecast_horizon_days : Nat
  safety_stock_ratio : ℚ
  active : Bool
deriving DecidableEq, Repr

/-- One row of the forecast DataFrame built by
`_generate_store_specific_forecast` (presentation-only columns such as the
formatted date string and the weekday name are represented by `date`). -/
structure ForecastRow where
  date : Date
  store : String
  store_name : String
  sku : String
  demand : ℤ
  current_stock : Nat
  recommended_purchase : ℤ
  priority : String
  seasonal_factor : ℚ
  holiday_factor : ℚ
  weather_factor : ℚ
deriving DecidableEq, Repr

/-- Embeds `_get_season`: season name from the month. -/
def _get_season (date : Date) : String :=
  if date.month = 12 ∨ date.month = 1 ∨ date.month = 2 then "winter"
  else if date.month = 3 ∨ date.month = 4 ∨ date.month = 5 then "spring"
  else if date.month = 6 ∨ date.month = 7 ∨ date.month = 8 then "summer"
  else "autumn"

/-- Zero-padded two-digit rendering used by `strftime` for `%m` and `%d`. -/
def pad2 (n : Nat) : String :=
  if n < 10 then "0" ++ toString n else toString n

/-- Embeds the `strftime` month-day rendering of a date. -/
def mmdd (month day : Nat) : String :=
  pad2 month ++ "-" ++ pad2 day

/-- Embeds `_get_holiday_multiplier`: a three-key dict from formatted
month-day strings, looked up at the formatted date, default 1.0. -/
def _get_holiday_multiplier (date : Date) (cfg : StoreConfig) : ℚ :=
  let holidays : List (String × ℚ) :=
    [("03-08", dictGet cfg.holiday_multipliers "WOMENS_DAY" 1),
     ("02-14", dictGet cfg.holiday_multipliers "VALENTINES" 1),
     ("03-21", dictGet cfg.holiday_multipliers "NAURYZ" 1)]
  (holidays.lookup (mmdd date.month date.day)).getD 1

/-- Embeds `_get_weather_multiplier`: one plus a uniform draw bounded by the
weather sensitivity of the store. -/
def _get_weather_multiplier (cfg : StoreConfig) (g : Rng) : ℚ × Rng :=
  let sensitivity := cfg.weather_sensitivity
  let p := uniform (-sensitivity) sensitivity g
  (1 + p.1, p.2)

def premium_skus : List String :=
  ["Роза_Premium_80см", "Пион_импорт", "Орхидея_фаленопсис",
   "Лилия_ориенталь", "Роза_Дэвид_Остин", "Гортензия_крупная"]

def mass_market_skus : List String :=
  ["Роза_стандарт_60см", "Тюльпан_стандарт", "Хризантема_куст",
   "Гвоздика_стандарт", "Альстромерия", "Герберы_микс"]

def business_skus : List String :=
  ["Роза_бизнес_70см", "Букет_корпоративный", "Композиция_офис",
   "Роза_классик", "Лилия_бизнес", "Хризантема_одногол"]

/-- The SKU list chosen from the store's type (the `if/elif/else` over
`store_type`; any type other than premium and mass_market falls to the
business branch). -/
def assortment (store_type : String) : List String :=
  if store_type = "premium" then premium_skus
  else if store_type = "mass_market" then mass_market_skus
  else business_skus

/-- The base-demand range chosen together with the assortment. -/
def base_demand_range (store_type : String) : Nat × Nat :=
  if store_type = "premium" then (15, 40)
  else if store_type = "mass_market" then (25, 60)
  else (10, 35)

/-- Embeds `final_demand`: `int(base_demand * seasonal * weekend * holiday * weather)`. -/
def final_demand_calc (cfg : StoreConfig) (date : Date) (base_demand : Nat)
    (weather_mult : ℚ) : ℤ :=
  let season := _get_season date
  let seasonal_mult := dictGet cfg.seasonal_multipliers season 1
  let weekend_mult : ℚ := if date.weekday = 5 ∨ date.weekday = 6 then 13/10 else 1
  let holiday_mult := _get_holiday_multiplier date cfg
  pyInt ((base_demand : ℚ) * seasonal_mult * weekend_mult * holiday_mult * weather_mult)

/-- Embeds `recommended_purchase = max(0, int(final_demand * safety_stock_ratio - current_stock))`. -/
def recommended_calc (cfg : StoreConfig) (final_demand : ℤ) (current_stock : Nat) : ℤ :=
  max 0 (pyInt ((final_demand : ℚ) * cfg.safety_stock_ratio - (current_stock : ℚ)))

/-- The priority tier; the source strings mean high, medium, low. -/
def priority_calc (final_demand recommended_purchase : ℤ) : String :=
  if final_demand < recommended_purchase then "Высокий"
  else if (final_demand : ℚ) * (1/2) < (recommended_purchase : ℚ) then "Средний"
  else "Низкий"

/-- The record appended for one (day, sku) pair, given the three random draws
of that iteration (base demand, weather multiplier, current stock). -/
def makeRow (store_id : String) (cfg : StoreConfig) (date : Date) (sku : String)
    (base_demand : Nat) (weather_mult : ℚ) (current_stock : Nat) : ForecastRow :=
  let seasonal_mult := dictGet cfg.seasonal_multipliers (_get_season date) 1
  let holiday_mult := _get_holiday_multiplier date cfg
  let final_demand := final_demand_calc cfg date base_demand weather_mult
  let recommended_purchase := recommended_calc cfg final_demand current_stock
  ⟨date, store_id, cfg.name, sku, final_demand, current_stock,
   recommended_purchase, priority_calc final_demand recommended_purchase,
   seasonal_mult, holiday_mult, weather_mult⟩

/-- One iteration of the inner SKU loop: draws base demand, the weather
multiplier and the current stock in the source's order and builds the row. -/
def forecastRow (store_id : String) (cfg : StoreConfig) (br : Nat × Nat)
    (date : Date) (sku : String) (g : Rng) : ForecastRow × Rng :=
  let pb := randint br.1 br.2 g
  let pw := _get_weather_multiplier cfg pb.2
  let ps := randint 0 25 pw.2
  (makeRow store_id cfg date sku pb.1 pw.1 ps.1, ps.2)

/-- The inner loop `for sku in skus` for one date. -/
def genRows (store_id : String) (cfg : StoreConfig) (br : Nat × Nat)
    (date : Date) (skus : List String) (g : Rng) : List ForecastRow × Rng :=
  match skus with
  | [] => ([], g)
  | sku :: rest =>
    let pr := forecastRow store_id cfg br date sku g
    let pt := genRows store_id cfg br date rest pr.2
    (pr.1 :: pt.1, pt.2)

/-- The outer loop `for day in range(forecast_days)` over the listed day
offsets, at the dates given by the injected clock. -/
def genDays (store_id : String) (cfg : StoreConfig) (br : Nat × Nat)
    (dateOf : Nat → Date) (skus : List String) :
    List Nat → Rng → List ForecastRow × Rng
  | [], g => ([], g)
  | day :: rest, g =>
    let pd := genRows store_id cfg br (dateOf day) skus g
    let pt := genDays store_id cfg br dateOf skus rest pd.2
    (pd.1 ++ pt.1, pt.2)

/-- Embeds `_generate_store_specific_forecast`. -/
def _generate_store_specific_forecast (store_id : String) (cfg : StoreConfig)
    (dateOf : Nat → Date) (forecast_days : Nat) (g : Rng) :
    List ForecastRow × Rng :=
  genDays store_id cfg (base_demand_range cfg.type) dateOf
    (assortment cfg.type) (List.range forecast_days) g

/-- Embeds `get_store_forecast`: an unknown store raises `ValueError`; an
inactive store yields an empty frame; a `None` day count falls back to the
horizon of the store. -/
def get_store_forecast (stores : List (String × StoreConfig)) (store_id : String)
    (forecast_days : Option Nat) (dateOf : Nat → Date) (g : Rng) :
    Except String (List ForecastRow × Rng) :=
  match stores.lookup store_id with
  | none => Except.error ("Магазин " ++ store_id ++ " не найден в конфигурации")
  | some store_config =>
    if store_config.active = false then Except.ok ([], g)
    else
      let days := forecast_days.getD store_config.forecast_horizon_days
      Except.ok (_generate_store_specific_forecast store_id store_config dateOf days g)

/-! ## Registration (`add_new_store`)

The dictionary passed by the caller is a mutable object; to speak about the
in-place default filling and about the registry holding the very same object,
dictionaries live in an explicit heap of addresses and the registry maps store
ids to addresses. -/

/-- A store-configuration dict as passed to `add_new_store`: any key may be
absent. -/
structure ConfigDict where
  name : Option String
  address : Option String
  type : Option String
  size_category : Option String
  target_audience : Option String
  avg_daily_visitors : Option Nat
  seasonal_multipliers : Option (List (String × ℚ))
  holiday_multipliers : Option (List (String × ℚ))
  weather_sensitivity : Option ℚ
  forecast_horizon_days : Option Nat
  safety_stock_ratio : Option ℚ
  active : Option Bool
deriving DecidableEq, Repr

/-- Manager state seen by `add_new_store`: a heap of configuration dicts and
the registry mapping (the stores key of the configuration) from store ids to
dict addresses. -/
structure RegState where
  heap : Nat → ConfigDict
  stores : List (String × Nat)

/-- The validation loop over `required_fields`, in source order: the name of
the first missing required field, if any. -/
def required_missing (c : ConfigDict) : Option String :=
  if c.name.isNone then some "name"
  else if c.address.isNone then some "address"
  else if c.type.isNone then some "type"
  else if c.size_category.isNone then some "size_category"
  else if c.target_audience.isNone then some "target_audience"
  else if c.avg_daily_visitors.isNone then some "avg_daily_visitors"
  else none

def default_seasonal : List (String × ℚ) :=
  [("winter", 9/10), ("spring", 11/10), ("summer", 1), ("autumn", 1)]

def default_holiday : List (String × ℚ) :=
  [("WOMENS_DAY", 4), ("VALENTINES", 9/5), ("NAURYZ", 2)]

/-- The loop over `default_values`: each absent optional key is written into
the dict; present keys are kept. -/
def fillDefaults (c : ConfigDict) : ConfigDict :=
  { c with
    seasonal_multipliers := some (c.seasonal_multipliers.getD default_seasonal)
    holiday_multipliers := some (c.holiday_multipliers.getD default_holiday)
    weather_sensitivity := some (c.weather_sensitivity.getD (1/4))
    forecast_horizon_days := some (c.forecast_horizon_days.getD 7)
    safety_stock_ratio := some (c.safety_stock_ratio.getD (6/5))
    active := some (c.active.getD true) }

/-- Python dict assignment `stores[store_id] = addr`: replace an existing
key's value, else append the new key. -/
def dictInsert (l : List (String × Nat)) (k : String) (v : Nat) :
    List (String × Nat) :=
  if (l.lookup k).isSome then
    l.map (fun p => if p.1 = k then (k, v) else p)
  else l ++ [(k, v)]

/-- The body of the `try` block of `add_new_store`: validate, fill defaults
in place (a heap update at the caller's address), then bind the registry key
to that same address.  `_save_config` only writes the file (and swallows its
own errors), so it does not change this state. -/
def add_new_store_body (s : RegState) (store_id : String) (addr : Nat) :
    Except String RegState :=
  let store_config := s.heap addr
  match required_missing store_config with
  | some f => Except.error ("Отсутствует обязательное поле: " ++ f)
  | none =>
    Except.ok ⟨Function.update s.heap addr (fillDefaults store_config),
               dictInsert s.stores store_id addr⟩

/-- Embeds `add_new_store`: the surrounding `try/except Exception` catches every
error, logs it and returns `False`; on success it returns `True`.  The
validation error is raised before any mutation, so the failure branch leaves
the state untouched.  The result type records that no exception escapes. -/
def add_new_store (s : RegState) (store_id : String) (addr : Nat) :
    Except String (Bool × RegState) :=
  match add_new_store_body s store_id addr with
  | Except.ok s' => Except.ok (true, s')
  | Except.error _e => Except.ok (false, s)

/-! ## Consolidation (`get_consolidation_opportunities`) -/

/-- One row of the grouped frame (group by date and SKU): the summed
purchase recommendation and the row count per (date, sku) group. -/
structure GroupRow where
  date : Date
  sku : String
  purchase : ℤ
  store_count : Nat
deriving DecidableEq, Repr

/-- The distinct (date, sku) keys of the input frame, in first-occurrence
order (pandas sorts group keys; no property proved here depends on the
enumeration order of the groups). -/
def groupKeys (rows : List ForecastRow) : List (Date × String) :=
  (rows.map (fun r => (r.date, r.sku))).eraseDups

/-- Summed `Рекомендация_закупки` of one (date, sku) group. -/
def sumPurchase (rows : List ForecastRow) (d : Date) (sku : String) : ℤ :=
  ((rows.filter (fun r => r.date = d ∧ r.sku = sku)).map
    (fun r => r.recommended_purchase)).sum

/-- Embeds the store-column count aggregation of one (date, sku) group. -/
def storeCount (rows : List ForecastRow) (d : Date) (sku : String) : Nat :=
  (rows.filter (fun r => r.date = d ∧ r.sku = sku)).length

/-- The grouped frame. -/
def grouped (rows : List ForecastRow) : List GroupRow :=
  (groupKeys rows).map
    (fun k => ⟨k.1, k.2, sumPurchase rows k.1 k.2, storeCount rows k.1 k.2⟩)

/-- Embeds `high_volume_items`: groups with summed purchase ≥ 50. -/
def high_volume_items (rows : List ForecastRow) : List GroupRow :=
  (grouped rows).filter (fun gr => 50 ≤ gr.purchase)

/-- A value of the consolidation mapping. -/
structure ConsolidationEntry where
  total_volume : ℤ
  top_items : List GroupRow
  potential_savings : ℚ
deriving DecidableEq, Repr

/-- The distinct dates of the grouped frame, via unique. -/
def groupedDates (rows : List ForecastRow) : List Date :=
  ((grouped rows).map (fun gr => gr.date)).eraseDups

/-- Embeds `nlargest 5` by summed purchase: stable descending sort, first five. -/
def top5 (l : List GroupRow) : List GroupRow :=
  (l.insertionSort (fun a b => b.purchase ≤ a.purchase)).take 5

/-- Embeds `get_consolidation_opportunities`: for each date of the grouped frame,
the high-volume groups of that date; dates with none are skipped. -/
def get_consolidation_opportunities (rows : List ForecastRow) :
    List (Date × ConsolidationEntry) :=
  (groupedDates rows).filterMap (fun d =>
    let date_data := (high_volume_items rows).filter (fun gr => gr.date = d)
    if date_data.isEmpty then none
    else some (d,
      ⟨(date_data.map (fun gr => gr.purchase)).sum,
       top5 date_data,
       ((((date_data.map (fun gr => gr.purchase)).sum : ℤ) : ℚ)) * (5/100)⟩))

/-! ## Concrete instances used to exercise the definitions -/

/-- A premium store configuration with simple multipliers (weather
sensitivity 0 keeps the sampled weather factor at exactly 1). -/
def wcfg : StoreConfig :=
  ⟨"Тест", "адрес", "premium", "large", "aud", 100,
   [("winter", 1), ("spring", 1), ("summer", 1), ("autumn", 1)],
   [("WOMENS_DAY", 4)], 0, 14, 2, true⟩

def wdate : Date := ⟨6, 15, 2⟩

/-- A one-day forecast for `wcfg` from seed 1. -/
def wrows : List ForecastRow :=
  (_generate_store_specific_forecast "almaty_1" wcfg (fun _ => wdate) 1 ⟨1⟩).1

/-- The first row of `wrows`: the first SKU of the premium assortment at the
initial generator state. -/
def wrow0 : ForecastRow :=
  (forecastRow "almaty_1" wcfg (base_demand_range wcfg.type) wdate
    "Роза_Premium_80см" ⟨1⟩).1

/-- An inactive store configuration. -/
def wcfg_inactive : StoreConfig :=
  { wcfg with active := false }

def wd5 : Date := ⟨6, 15, 2⟩

def wrow5a : ForecastRow :=
  ⟨wd5, "almaty_1", "n1", "Роза_стандарт_60см", 40, 0, 48, "Высокий", 1, 1, 1⟩

def wrow5b : ForecastRow :=
  ⟨wd5, "almaty_2", "n2", "Роза_стандарт_60см", 40, 0, 30, "Средний", 1, 1, 1⟩

def wrows5 : List ForecastRow := [wrow5a, wrow5b]

/-- The consolidation entry produced for `wd5` from `wrows5`. -/
def wentry5 : ConsolidationEntry :=
  ⟨78, [⟨wd5, "Роза_стандарт_60см", 78, 2⟩], ((78 : ℤ) : ℚ) * (5/100)⟩

/-- A registration dict whose `avg_daily_visitors` key is absent. -/
def cfg_missing_visitors : ConfigDict :=
  ⟨some "Алматы Esentai Mall", some "пр. Аль-Фараби, 77/8", some "premium",
   some "large", some "luxury_customers", none,
   none, none, none, none, none, none⟩

/-- A registration dict with all required keys and no optional keys. -/
def cfg_valid : ConfigDict :=
  ⟨some "Алматы Esentai Mall", some "пр. Аль-Фараби, 77/8", some "premium",
   some "large", some "luxury_customers", some 180,
   none, none, none, none, none, none⟩

def reg0 : RegState := ⟨fun _ => cfg_missing_visitors, [("almaty_1", 0)]⟩

def reg1 : RegState := ⟨fun _ => cfg_valid, []⟩

/-! ## Theorems -/

lemma genRows_length (sid : String) (cfg : StoreConfig) (br : Nat × Nat)
    (date : Date) (skus : List String) (g : Rng) :
    (genRows sid cfg br date skus g).1.length = skus.length := by
  induction skus generalizing g with
  | nil => rfl
  | cons s t ih => simp [genRows, ih]

lemma genDays_length (sid : String) (cfg : StoreConfig) (br : Nat × Nat)
    (dateOf : Nat → Date) (skus : List String) (l : List Nat) (g : Rng) :
    (genDays sid cfg br dateOf skus l g).1.length = l.length * skus.length := by
  induction l generalizing g with
  | nil => simp [genDays]
  | cons d t ih => simp [genDays, genRows_length, ih]; ring

lemma assortment_length (t : String) : (assortment t).length = 6 := by
  unfold assortment
  split_ifs <;> rfl

/-- C1: a known, active store's forecast has exactly
`days × |assortment(store_type)|` rows, and every assortment has six SKUs. -/
theorem forecast_row_count (stores : List (String × StoreConfig))
    (store_id : String) (cfg : StoreConfig) (days : Nat) (dateOf : Nat → Date)
    (g : Rng) (hfound : stores.lookup store_id = some cfg)
    (hactive : cfg.active = true) :
    ∃ rows g', get_store_forecast stores store_id (some days) dateOf g =
        Except.ok (rows, g') ∧
      rows.length = days * (assortment cfg.type).length ∧
      (assortment cfg.type).length = 6 := by
  refine ⟨(_generate_store_specific_forecast store_id cfg dateOf days g).1,
          (_generate_store_specific_forecast store_id cfg dateOf days g).2,
          ?_, ?_, assortment_length _⟩
  · simp [get_store_forecast, hfound, hactive]
  · simp [_generate_store_specific_forecast, genDays_length]

theorem forecast_row_count_witness :
    ∃ rows g', get_store_forecast [("almaty_1", wcfg)] "almaty_1" (some 2)
        (fun _ => wdate) ⟨1⟩ = Except.ok (rows, g') ∧
      rows.length = 2 * (assortment wcfg.type).length ∧
      (assortment wcfg.type).length = 6 :=
  forecast_row_count [("almaty_1", wcfg)] "almaty_1" wcfg 2 (fun _ => wdate)
    ⟨1⟩ rfl rfl

/-- C4: an unknown store id makes `get_store_forecast` fail with the
not-found error, while a known but inactive store yields the empty forecast
without an error. -/
theorem forecast_unknown_or_inactive (stores : List (String × StoreConfig))
    (store_id : String) (fd : Option Nat) (dateOf : Nat → Date) (g : Rng) :
    (stores.lookup store_id = none →
      get_store_forecast stores store_id fd dateOf g =
        Except.error ("Магазин " ++ store_id ++ " не найден в конфигурации")) ∧
    (∀ cfg, stores.lookup store_id = some cfg → cfg.active = false →
      get_store_forecast stores store_id fd dateOf g = Except.ok ([], g)) := by
  constructor
  · intro h
    simp [get_store_forecast, h]
  · intro cfg h ha
    simp [get_store_forecast, h, ha]

theorem forecast_unknown_or_inactive_witness :
    get_store_forecast [] "almaty_9" none (fun _ => wdate) ⟨1⟩ =
      Except.error ("Магазин " ++ "almaty_9" ++ " не найден в конфигурации") ∧
    get_store_forecast [("almaty_1", wcfg_inactive)] "almaty_1" none
      (fun _ => wdate) ⟨1⟩ = Except.ok ([], ⟨1⟩) :=
  ⟨(forecast_unknown_or_inactive [] "almaty_9" none (fun _ => wdate) ⟨1⟩).1 rfl,
   (forecast_unknown_or_inactive [("almaty_1", wcfg_inactive)] "almaty_1" none
      (fun _ => wdate) ⟨1⟩).2 wcfg_inactive rfl rfl⟩

/-- C8: with the random source injected as an explicit seed, two forecast
calls with identical arguments and the same seed give identical results. -/
theorem forecast_deterministic (stores : List (String × StoreConfig))
    (store_id : String) (fd : Option Nat) (dateOf : Nat → Date) (g1 g2 : Rng)
    (h : g1 = g2) :
    get_store_forecast stores store_id fd dateOf g1 =
      get_store_forecast stores store_id fd dateOf g2 := by
  rw [h]

theorem forecast_deterministic_witness :
    get_store_forecast [("almaty_1", wcfg)] "almaty_1" (some 3)
        (fun _ => wdate) ⟨42⟩ =
      get_store_forecast [("almaty_1", wcfg)] "almaty_1" (some 3)
        (fun _ => wdate) ⟨42⟩ :=
  forecast_deterministic [("almaty_1", wcfg)] "almaty_1" (some 3)
    (fun _ => wdate) ⟨42⟩ ⟨42⟩ rfl

lemma mem_genRows {sid : String} {cfg : StoreConfig} {br : Nat × Nat}
    {date : Date} {skus : List String} {g : Rng} {row : ForecastRow}
    (h : row ∈ (genRows sid cfg br date skus g).1) :
    ∃ sku g', sku ∈ skus ∧ row = (forecastRow sid cfg br date sku g').1 := by
  induction skus generalizing g with
  | nil => simp [genRows] at h
  | cons s t ih =>
    simp only [genRows, List.mem_cons] at h
    rcases h with h | h
    · exact ⟨s, g, by simp, h⟩
    · obtain ⟨sku, g', hm, he⟩ := ih h
      exact ⟨sku, g', by simp [hm], he⟩

lemma mem_genDays {sid : String} {cfg : StoreConfig} {br : Nat × Nat}
    {dateOf : Nat → Date} {skus : List String} {l : List Nat} {g : Rng}
    {row : ForecastRow}
    (h : row ∈ (genDays sid cfg br dateOf skus l g).1) :
    ∃ day g', day ∈ l ∧ row ∈ (genRows sid cfg br (dateOf day) skus g').1 := by
  induction l generalizing g with
  | nil => simp [genDays] at h
  | cons d t ih =>
    simp only [genDays, List.mem_append] at h
    rcases h with h | h
    · exact ⟨d, g, by simp, h⟩
    · obtain ⟨day, g', hm, he⟩ := ih h
      exact ⟨day, g', by simp [hm], he⟩

/-- Every generated row is the output of one inner-loop iteration for some
date, SKU of the store's assortment, and generator state. -/
lemma mem_forecast {sid : String} {cfg : StoreConfig} {dateOf : Nat → Date}
    {days : Nat} {g : Rng} {row : ForecastRow}
    (h : row ∈ (_generate_store_specific_forecast sid cfg dateOf days g).1) :
    ∃ date sku g', sku ∈ assortment cfg.type ∧
      row = (forecastRow sid cfg (base_demand_range cfg.type) date sku g').1 := by
  unfold _generate_store_specific_forecast at h
  obtain ⟨day, g1, _, h1⟩ := mem_genDays h
  obtain ⟨sku, g2, hsku, h2⟩ := mem_genRows h1
  exact ⟨dateOf day, sku, g2, hsku, h2⟩

lemma priority_calc_spec (fd rp : ℤ) :
    (fd < rp → priority_calc fd rp = "Высокий") ∧
    ((fd : ℚ) * (1/2) < (rp : ℚ) ∧ rp ≤ fd → priority_calc fd rp = "Средний") ∧
    (¬ fd < rp ∧ ¬ ((fd : ℚ) * (1/2) < (rp : ℚ) ∧ rp ≤ fd) →
      priority_calc fd rp = "Низкий") := by
  unfold priority_calc
  refine ⟨fun h => if_pos h, fun h => ?_, fun h => ?_⟩
  · rw [if_neg (by omega), if_pos h.1]
  · rw [if_neg h.1, if_neg ?_]
    intro hq
    exact h.2 ⟨hq, by omega⟩

/-- C2: the priority tier of every generated row follows the
`recommended_purchase` versus `demand` classification. -/
theorem forecast_priority_consistent (sid : String) (cfg : StoreConfig)
    (dateOf : Nat → Date) (days : Nat) (g : Rng) (row : ForecastRow)
    (hmem : row ∈ (_generate_store_specific_forecast sid cfg dateOf days g).1) :
    (row.demand < row.recommended_purchase → row.priority = "Высокий") ∧
    ((row.demand : ℚ) * (1/2) < (row.recommended_purchase : ℚ) ∧
        row.recommended_purchase ≤ row.demand → row.priority = "Средний") ∧
    (¬ row.demand < row.recommended_purchase ∧
        ¬ ((row.demand : ℚ) * (1/2) < (row.recommended_purchase : ℚ) ∧
           row.recommended_purchase ≤ row.demand) →
      row.priority = "Низкий") := by
  obtain ⟨date, sku, g', _, he⟩ := mem_forecast hmem
  subst he
  exact priority_calc_spec _ _

theorem forecast_priority_consistent_witness :
    wrow0 ∈ wrows ∧
    (wrow0.demand < wrow0.recommended_purchase → wrow0.priority = "Высокий") :=
  ⟨List.mem_cons_self _ _,
   (forecast_priority_consistent "almaty_1" wcfg (fun _ => wdate) 1 ⟨1⟩ wrow0
      (List.mem_cons_self _ _)).1⟩

lemma pyInt_nonneg {q : ℚ} (h : 0 ≤ q) : 0 ≤ pyInt q := by
  unfold pyInt
  rw [if_neg (not_lt.2 h)]
  exact Int.floor_nonneg.2 h

lemma lookup_getD_nonneg {l : List (String × ℚ)} {k : String} {d : ℚ}
    (hd : 0 ≤ d) (h : ∀ p ∈ l, 0 ≤ p.2) : 0 ≤ (l.lookup k).getD d := by
  induction l with
  | nil => simpa [List.lookup]
  | cons p t ih =>
    obtain ⟨k', v⟩ := p
    simp only [List.lookup]
    cases hk : k == k' with
    | true =>
      have hv : 0 ≤ v := h (k', v) (by simp)
      simpa
    | false =>
      exact ih (fun p hp => h p (by simp [hp]))

lemma dictGet_nonneg {l : List (String × ℚ)} {k : String}
    (h : ∀ p ∈ l, 0 ≤ p.2) : 0 ≤ dictGet l k 1 :=
  lookup_getD_nonneg (by norm_num) h

lemma holiday_mult_nonneg (date : Date) (cfg : StoreConfig)
    (h : ∀ p ∈ cfg.holiday_multipliers, 0 ≤ p.2) :
    0 ≤ _get_holiday_multiplier date cfg := by
  unfold _get_holiday_multiplier
  apply lookup_getD_nonneg (by norm_num)
  intro p hp
  simp only [List.mem_cons, List.not_mem_nil, or_false] at hp
  rcases hp with h1 | h1 | h1 <;> subst h1 <;> exact dictGet_nonneg h

lemma weather_mult_nonneg (cfg : StoreConfig) (g : Rng)
    (h0 : 0 ≤ cfg.weather_sensitivity) (h1 : cfg.weather_sensitivity ≤ 1) :
    0 ≤ (_get_weather_multiplier cfg g).1 := by
  unfold _get_weather_multiplier uniform
  simp only
  have ht : (0:ℚ) ≤ ((Rng.next g).1 : ℚ) / 2147483648 :=
    div_nonneg (Nat.cast_nonneg _) (by norm_num)
  nlinarith [mul_nonneg h0 ht]

lemma final_demand_calc_nonneg (cfg : StoreConfig) (date : Date) (b : Nat)
    (w : ℚ) (hs : ∀ p ∈ cfg.seasonal_multipliers, 0 ≤ p.2)
    (hh : ∀ p ∈ cfg.holiday_multipliers, 0 ≤ p.2) (hw : 0 ≤ w) :
    0 ≤ final_demand_calc cfg date b w := by
  unfold final_demand_calc
  apply pyInt_nonneg
  have h1 : 0 ≤ dictGet cfg.seasonal_multipliers (_get_season date) 1 :=
    dictGet_nonneg hs
  have h2 : 0 ≤ _get_holiday_multiplier date cfg := holiday_mult_nonneg date cfg hh
  have h3 : (0:ℚ) ≤ (if date.weekday = 5 ∨ date.weekday = 6 then (13:ℚ)/10 else 1) := by
    split <;> norm_num
  have hb : (0:ℚ) ≤ (b : ℚ) := Nat.cast_nonneg b
  exact mul_nonneg (mul_nonneg (mul_nonneg (mul_nonneg hb h1) h3) h2) hw

lemma recommended_calc_nonneg (cfg : StoreConfig) (fd : ℤ) (st : Nat) :
    0 ≤ recommended_calc cfg fd st :=
  le_max_left 0 _

/-- C6: with non-negative multipliers and weather sensitivity in `[0,1]`,
every generated row has non-negative demand and purchase recommendation. -/
theorem forecast_nonneg (sid : String) (cfg : StoreConfig) (dateOf : Nat → Date)
    (days : Nat) (g : Rng) (row : ForecastRow)
    (hs : ∀ p ∈ cfg.seasonal_multipliers, 0 ≤ p.2)
    (hh : ∀ p ∈ cfg.holiday_multipliers, 0 ≤ p.2)
    (h0 : 0 ≤ cfg.weather_sensitivity) (h1 : cfg.weather_sensitivity ≤ 1)
    (hmem : row ∈ (_generate_store_specific_forecast sid cfg dateOf days g).1) :
    0 ≤ row.demand ∧ 0 ≤ row.recommended_purchase := by
  obtain ⟨date, sku, g', _, he⟩ := mem_forecast hmem
  subst he
  exact ⟨final_demand_calc_nonneg cfg date _ _ hs hh
            (weather_mult_nonneg cfg _ h0 h1),
         recommended_calc_nonneg _ _ _⟩

theorem forecast_nonneg_witness :
    wrow0 ∈ wrows ∧ 0 ≤ wrow0.demand ∧ 0 ≤ wrow0.recommended_purchase :=
  ⟨List.mem_cons_self _ _,
   forecast_nonneg "almaty_1" wcfg (fun _ => wdate) 1 ⟨1⟩ wrow0
     (by decide) (by decide) (by decide) (by decide) (List.mem_cons_self _ _)⟩

lemma recommended_calc_le (cfg : StoreConfig) (fd : ℤ) (st : Nat)
    (hfd : 0 ≤ fd) (hr : 0 ≤ cfg.safety_stock_ratio) :
    recommended_calc cfg fd st ≤ ⌊(fd : ℚ) * cfg.safety_stock_ratio⌋ := by
  unfold recommended_calc
  have hprod : (0:ℚ) ≤ (fd : ℚ) * cfg.safety_stock_ratio :=
    mul_nonneg (by exact_mod_cast hfd) hr
  have hfl : 0 ≤ ⌊(fd : ℚ) * cfg.safety_stock_ratio⌋ := Int.floor_nonneg.2 hprod
  apply max_le hfl
  unfold pyInt
  split_ifs with h
  · exact le_trans (Int.ceil_le.2 (by exact_mod_cast h.le)) hfl
  · apply Int.floor_le_floor
    have hst : (0:ℚ) ≤ (st : ℚ) := Nat.cast_nonneg st
    linarith

/-- C10: with a non-negative safety-stock ratio (and the C6 well-formedness
of the multipliers), every generated row's purchase recommendation is at most
`⌊demand × safety_stock_ratio⌋`. -/
theorem forecast_purchase_bound (sid : String) (cfg : StoreConfig)
    (dateOf : Nat → Date) (days : Nat) (g : Rng) (row : ForecastRow)
    (hs : ∀ p ∈ cfg.seasonal_multipliers, 0 ≤ p.2)
    (hh : ∀ p ∈ cfg.holiday_multipliers, 0 ≤ p.2)
    (h0 : 0 ≤ cfg.weather_sensitivity) (h1 : cfg.weather_sensitivity ≤ 1)
    (hr : 0 ≤ cfg.safety_stock_ratio)
    (hmem : row ∈ (_generate_store_specific_forecast sid cfg dateOf days g).1) :
    row.recommended_purchase ≤ ⌊(row.demand : ℚ) * cfg.safety_stock_ratio⌋ := by
  obtain ⟨date, sku, g', _, he⟩ := mem_forecast hmem
  subst he
  exact recommended_calc_le cfg _ _
    (final_demand_calc_nonneg cfg date _ _ hs hh
      (weather_mult_nonneg cfg _ h0 h1)) hr

theorem forecast_purchase_bound_witness :
    wrow0 ∈ wrows ∧
    wrow0.recommended_purchase ≤ ⌊(wrow0.demand : ℚ) * wcfg.safety_stock_ratio⌋ :=
  ⟨List.mem_cons_self _ _,
   forecast_purchase_bound "almaty_1" wcfg (fun _ => wdate) 1 ⟨1⟩ wrow0
     (by decide) (by decide) (by decide) (by decide) (by decide)
     (List.mem_cons_self _ _)⟩

/-- On calendar-valid month-day pairs, the formatted month-day rendering
matches a holiday key exactly at that holiday's date. -/
lemma mmdd_table : ∀ m : Nat, m < 13 → ∀ d : Nat, d < 32 →
    ((mmdd m d = "03-08") ↔ (m = 3 ∧ d = 8)) ∧
    ((mmdd m d = "02-14") ↔ (m = 2 ∧ d = 14)) ∧
    ((mmdd m d = "03-21") ↔ (m = 3 ∧ d = 21)) := by decide

/-- C7: the holiday factor is the store's multiplier for a holiday code
exactly when the date's month-day is that holiday's date (03-08 WOMENS_DAY,
02-14 VALENTINES, 03-21 NAURYZ) and 1.0 on every other date; there is no
multi-day peak window. -/
theorem holiday_factor_exact_date (cfg : StoreConfig) (date : Date)
    (hm1 : 1 ≤ date.month) (hm2 : date.month ≤ 12)
    (hd1 : 1 ≤ date.day) (hd2 : date.day ≤ 31) :
    _get_holiday_multiplier date cfg =
      (if date.month = 3 ∧ date.day = 8 then
        dictGet cfg.holiday_multipliers "WOMENS_DAY" 1
      else if date.month = 2 ∧ date.day = 14 then
        dictGet cfg.holiday_multipliers "VALENTINES" 1
      else if date.month = 3 ∧ date.day = 21 then
        dictGet cfg.holiday_multipliers "NAURYZ" 1
      else 1) := by
  obtain ⟨t1, t2, t3⟩ := mmdd_table date.month (by omega) date.day (by omega)
  unfold _get_holiday_multiplier
  by_cases hA : date.month = 3 ∧ date.day = 8
  · rw [t1.mpr hA, if_pos hA]
    rfl
  · rw [if_neg hA]
    by_cases hB : date.month = 2 ∧ date.day = 14
    · rw [t2.mpr hB, if_pos hB]
      rfl
    · rw [if_neg hB]
      by_cases hC : date.month = 3 ∧ date.day = 21
      · rw [t3.mpr hC, if_pos hC]
        rfl
      · rw [if_neg hC]
        have e1 : (mmdd date.month date.day == "03-08") = false :=
          beq_eq_false_iff_ne.mpr (fun hc => hA (t1.mp hc))
        have e2 : (mmdd date.month date.day == "02-14") = false :=
          beq_eq_false_iff_ne.mpr (fun hc => hB (t2.mp hc))
        have e3 : (mmdd date.month date.day == "03-21") = false :=
          beq_eq_false_iff_ne.mpr (fun hc => hC (t3.mp hc))
        simp [List.lookup, e1, e2, e3]

theorem holiday_factor_exact_date_witness :
    _get_holiday_multiplier ⟨3, 8, 5⟩ wcfg =
      (if (3 : Nat) = 3 ∧ (8 : Nat) = 8 then
        dictGet wcfg.holiday_multipliers "WOMENS_DAY" 1
      else if (3 : Nat) = 2 ∧ (8 : Nat) = 14 then
        dictGet wcfg.holiday_multipliers "VALENTINES" 1
      else if (3 : Nat) = 3 ∧ (8 : Nat) = 21 then
        dictGet wcfg.holiday_multipliers "NAURYZ" 1
      else 1) :=
  holiday_factor_exact_date wcfg ⟨3, 8, 5⟩ (by decide) (by decide) (by decide)
    (by decide)

/-- C3 counterexample: registering a store whose dict lacks
`avg_daily_visitors` does not propagate any error to the caller — the
`except` clause turns the internal `ValueError` into a normal `False` return
(with the state unchanged), so no call result is an error. -/
theorem add_new_store_no_propagation :
    add_new_store reg0 "almaty_4" 0 = Except.ok (false, reg0) ∧
    ∀ e, add_new_store reg0 "almaty_4" 0 ≠ Except.error e := by
  have h1 : add_new_store reg0 "almaty_4" 0 = Except.ok (false, reg0) := rfl
  exact ⟨h1, fun e h => by rw [h1] at h; exact Except.noConfusion h⟩

/-- C3 (amended): registration with a missing required field reports failure
by returning `False` — the internal validation error is caught, not
propagated — and leaves the state, in particular the registry and its store
count, unchanged. -/
theorem add_new_store_missing_field (s : RegState) (store_id : String)
    (addr : Nat) (f : String) (h : required_missing (s.heap addr) = some f) :
    add_new_store s store_id addr = Except.ok (false, s) := by
  simp [add_new_store, add_new_store_body, h]

theorem add_new_store_missing_field_witness :
    required_missing (reg0.heap 0) = some "avg_daily_visitors" ∧
    add_new_store reg0 "almaty_4" 0 = Except.ok (false, reg0) :=
  ⟨rfl, add_new_store_missing_field reg0 "almaty_4" 0 "avg_daily_visitors" rfl⟩

lemma lookup_dictInsert (l : List (String × Nat)) (k : String) (v : Nat) :
    (dictInsert l k v).lookup k = some v := by
  unfold dictInsert
  split
  case isTrue hp =>
    induction l with
    | nil => simp at hp
    | cons p t ih =>
      simp only [List.map]
      by_cases hk : p.1 = k
      · rw [if_pos hk]
        simp [List.lookup]
      · rw [if_neg hk]
        have hb : (k == p.1) = false := beq_eq_false_iff_ne.mpr (fun h => hk h.symm)
        simp only [List.lookup, hb]
        apply ih
        simpa [List.lookup, hb] using hp
  case isFalse hp =>
    induction l with
    | nil => simp [List.lookup]
    | cons p t ih =>
      have hb : (k == p.1) = false := by
        rcases hk : k == p.1 with _ | _
        · rfl
        · exact absurd (by simp [List.lookup, hk]) hp
      simp only [List.cons_append, List.lookup, hb]
      exact ih (by simpa [List.lookup, hb] using hp)

/-- C9: a successful registration writes every absent optional field's
default into the caller's own dict (a heap update at the caller's address),
and the registry binds the store id to that same address, not to a copy. -/
theorem add_new_store_mutates_caller (s : RegState) (store_id : String)
    (addr : Nat) (h : required_missing (s.heap addr) = none) :
    ∃ s', add_new_store s store_id addr = Except.ok (true, s') ∧
      s'.heap addr = fillDefaults (s.heap addr) ∧
      ((s.heap addr).seasonal_multipliers = none →
        (s'.heap addr).seasonal_multipliers = some default_seasonal) ∧
      ((s.heap addr).holiday_multipliers = none →
        (s'.heap addr).holiday_multipliers = some default_holiday) ∧
      ((s.heap addr).weather_sensitivity = none →
        (s'.heap addr).weather_sensitivity = some (1/4)) ∧
      ((s.heap addr).forecast_horizon_days = none →
        (s'.heap addr).forecast_horizon_days = some 7) ∧
      ((s.heap addr).safety_stock_ratio = none →
        (s'.heap addr).safety_stock_ratio = some (6/5)) ∧
      ((s.heap addr).active = none → (s'.heap addr).active = some true) ∧
      s'.stores.lookup store_id = some addr := by
  refine ⟨⟨Function.update s.heap addr (fillDefaults (s.heap addr)),
           dictInsert s.stores store_id addr⟩, ?_, ?_, ?_, ?_, ?_, ?_, ?_, ?_, ?_⟩
  · simp [add_new_store, add_new_store_body, h]
  · exact Function.update_same addr _ s.heap
  · intro hn
    simp [Function.update_same, fillDefaults, hn]
  · intro hn
    simp [Function.update_same, fillDefaults, hn]
  · intro hn
    simp [Function.update_same, fillDefaults, hn]
  · intro hn
    simp [Function.update_same, fillDefaults, hn]
  · intro hn
    simp [Function.update_same, fillDefaults, hn]
  · intro hn
    simp [Function.update_same, fillDefaults, hn]
  · exact lookup_dictInsert s.stores store_id addr

theorem add_new_store_mutates_caller_witness :
    required_missing (reg1.heap 0) = none ∧
    (∃ s', add_new_store reg1 "almaty_4" 0 = Except.ok (true, s') ∧
      s'.heap 0 = fillDefaults (reg1.heap 0) ∧
      ((reg1.heap 0).seasonal_multipliers = none →
        (s'.heap 0).seasonal_multipliers = some default_seasonal) ∧
      ((reg1.heap 0).holiday_multipliers = none →
        (s'.heap 0).holiday_multipliers = some default_holiday) ∧
      ((reg1.heap 0).weather_sensitivity = none →
        (s'.heap 0).weather_sensitivity = some (1/4)) ∧
      ((reg1.heap 0).forecast_horizon_days = none →
        (s'.heap 0).forecast_horizon_days = some 7) ∧
      ((reg1.heap 0).safety_stock_ratio = none →
        (s'.heap 0).safety_stock_ratio = some (6/5)) ∧
      ((reg1.heap 0).active = none → (s'.heap 0).active = some true) ∧
      s'.stores.lookup "almaty_4" = some 0) :=
  ⟨rfl, add_new_store_mutates_caller reg1 "almaty_4" 0 rfl⟩

/-- C5: every date in the consolidation result has at least one (date, sku)
group with summed purchase ≥ 50; its `top_items` all have summed purchase
≥ 50; its `total_volume` sums exactly the ≥ 50 groups of that date; and
`potential_savings` is 5% of that volume.  (Contrapositive of the first
conjunct: a date with no such group is absent.) -/
theorem consolidation_threshold (rows : List ForecastRow) (d : Date)
    (e : ConsolidationEntry)
    (h : (d, e) ∈ get_consolidation_opportunities rows) :
    (∃ gr ∈ grouped rows, gr.date = d ∧ 50 ≤ gr.purchase) ∧
    (∀ gr ∈ e.top_items, 50 ≤ gr.purchase) ∧
    e.total_volume =
      (((grouped rows).filter (fun gr => gr.date = d ∧ 50 ≤ gr.purchase)).map
        (fun gr => gr.purchase)).sum ∧
    e.potential_savings = (e.total_volume : ℚ) * (5/100) := by
  unfold get_consolidation_opportunities at h
  rw [List.mem_filterMap] at h
  obtain ⟨d0, hd0, hf⟩ := h
  dsimp only at hf
  split at hf
  case isTrue => exact absurd hf (by simp)
  case isFalse hne =>
    rw [Option.some.injEq, Prod.mk.injEq] at hf
    obtain ⟨hd, he⟩ := hf
    subst hd
    subst he
    have hdd : (high_volume_items rows).filter (fun gr => gr.date = d0) =
        (grouped rows).filter (fun gr => gr.date = d0 ∧ 50 ≤ gr.purchase) := by
      unfold high_volume_items
      rw [List.filter_filter]
      apply List.filter_congr
      intro a _
      rw [Bool.decide_and]
    refine ⟨?_, ?_, ?_, rfl⟩
    · have hne' : (high_volume_items rows).filter (fun gr => gr.date = d0) ≠ [] := by
        intro hnil
        rw [hnil] at hne
        exact hne rfl
      obtain ⟨gr, hgr⟩ := List.exists_mem_of_ne_nil _ hne'
      rw [hdd] at hgr
      rw [List.mem_filter] at hgr
      refine ⟨gr, hgr.1, ?_⟩
      simpa using hgr.2
    · intro gr hgr
      have h1 : gr ∈ ((high_volume_items rows).filter
          (fun gr => gr.date = d0)).insertionSort
            (fun a b => b.purchase ≤ a.purchase) :=
        List.take_subset 5 _ hgr
      have h2 : gr ∈ (high_volume_items rows).filter (fun gr => gr.date = d0) :=
        (List.perm_insertionSort _ _).mem_iff.mp h1
      rw [hdd, List.mem_filter] at h2
      have := h2.2
      simp only [decide_eq_true_eq] at this
      exact this.2
    · rw [hdd]

theorem consolidation_threshold_witness :
    (wd5, wentry5) ∈ get_consolidation_opportunities wrows5 ∧
    (∀ gr ∈ wentry5.top_items, 50 ≤ gr.purchase) ∧
    wentry5.potential_savings = (wentry5.total_volume : ℚ) * (5/100) := by
  have hmem : (wd5, wentry5) ∈ get_consolidation_opportunities wrows5 :=
    List.mem_cons_self _ _
  have h := consolidation_threshold wrows5 wd5 wentry5 hmem
  exact ⟨hmem, h.2.1, h.2.2.2⟩

end MultiStore
